import Mathlib

/-
Verification of the smart_applicant pipeline (src/logic.py) against its
natural-language specification.  The Python module is shallowly embedded:
strings are lists of characters, the mutable module state (progress events,
filesystem contents, lazily initialised AI clients, LLM call counter) is an
explicit record threaded through the stage functions, and every external
effect (LLM SDK calls, template reads, directory creation, file writes) is
an oracle packaged in a `World` record.  The model is restricted to ASCII
text: the character classes of Python's `re` module (`\w`, `\s`) and of
`str.strip` are reproduced exactly on the ASCII range.
-/

namespace SmartApplicant

/-- Python strings are modelled as lists of characters. -/
abbrev Str := List Char

/-- Characters matched by Python's regex class `\w` on the ASCII range:
letters, digits and the underscore. -/
def pyIsWordChar (c : Char) : Bool :=
  (('A' ≤ c && c ≤ 'Z') || ('a' ≤ c && c ≤ 'z') || ('0' ≤ c && c ≤ '9') || c = '_')

/-- Characters matched by Python's regex class `\s` (equivalently
`str.isspace`) on the ASCII range: space, tab, newline, carriage return,
vertical tab, form feed and the four separator controls 0x1c-0x1f. -/
def pyIsSpaceChar (c : Char) : Bool :=
  c = ' ' || c = '\t' || c = '\n' || c = '\r' || c = '\x0b' || c = '\x0c' ||
  c = '\x1c' || c = '\x1d' || c = '\x1e' || c = '\x1f'

/-- Characters kept by `re.sub(r'[^\w\s-]', '', s)` in logic.py: word
characters, whitespace and the hyphen. -/
def keepChar (c : Char) : Bool :=
  pyIsWordChar c || pyIsSpaceChar c || c = '-'

/-- Python `str.strip()` with no argument: drop leading and trailing
whitespace. -/
def pyStrip (s : Str) : Str :=
  ((s.dropWhile pyIsSpaceChar).reverse.dropWhile pyIsSpaceChar).reverse

/-- The directory-name sanitiser of `create_job_directory` (logic.py line
150): `re.sub(r'[^\w\s-]', '', s).strip()`. -/
def safe_name (s : Str) : Str :=
  pyStrip (s.filter keepChar)

/-- The filename sanitiser of `save_files` (logic.py line 215):
`re.sub(r'[^\w\s-]', '', role).strip().replace(' ', '_')`. -/
def safe_role_fn (s : Str) : Str :=
  (safe_name s).map (fun c => if c = ' ' then '_' else c)

/-- The character alphabet named by the specification's sanitisation-closure
law: `[A-Za-z0-9_ -]`. -/
def specAllowedChar (c : Char) : Bool :=
  (('A' ≤ c && c ≤ 'Z') || ('a' ≤ c && c ≤ 'z') || ('0' ≤ c && c ≤ '9') ||
   c = '_' || c = ' ' || c = '-')

/-- Concrete input exercising the sanitiser with an interior tab. -/
def tabInput : Str := ['A', '\t', 'B']

-- Helper lemmas about dropWhile / strip.

theorem head?_dropWhile_not (p : Char → Bool) (l : List Char) (h : Char)
    (hh : (l.dropWhile p).head? = some h) : p h = false := by
  induction l with
  | nil => simp [List.dropWhile] at hh
  | cons a l ih =>
    by_cases hp : p a
    · simp [List.dropWhile, hp] at hh
      exact ih hh
    · simp [List.dropWhile, hp] at hh
      subst hh
      simpa using hp

theorem mem_pyStrip {c : Char} {l : Str} (hc : c ∈ pyStrip l) : c ∈ l := by
  unfold pyStrip at hc
  rw [List.mem_reverse] at hc
  have h1 := (@List.dropWhile_sublist Char
    (l.dropWhile pyIsSpaceChar).reverse pyIsSpaceChar).subset hc
  rw [List.mem_reverse] at h1
  exact (@List.dropWhile_sublist Char l pyIsSpaceChar).subset h1

theorem pyStrip_head_not_space (l : Str) (h : Char)
    (hh : (pyStrip l).head? = some h) : pyIsSpaceChar h = false := by
  unfold pyStrip at hh
  set m := l.dropWhile pyIsSpaceChar with hm
  set X := m.reverse.dropWhile pyIsSpaceChar with hX
  -- X.reverse is a prefix of m, so its head is the head of m
  have hsuf : X <:+ m.reverse := List.dropWhile_suffix pyIsSpaceChar
  cases hXr : X.reverse with
  | nil => simp [hXr] at hh
  | cons a t =>
    rw [hXr] at hh
    simp at hh
    obtain ⟨r, hr⟩ := hsuf
    have hmr : m = X.reverse ++ r.reverse := by
      have := congrArg List.reverse hr
      simpa using this.symm
    have hhead : m.head? = some h := by
      rw [hmr, hXr]
      simp [hh]
    exact head?_dropWhile_not pyIsSpaceChar l h hhead

theorem pyStrip_getLast_not_space (l : Str) (h : Char)
    (hh : (pyStrip l).getLast? = some h) : pyIsSpaceChar h = false := by
  unfold pyStrip at hh
  rw [List.getLast?_reverse] at hh
  exact head?_dropWhile_not _ _ _ hh

theorem mem_safe_name_keep {c : Char} {s : Str} (hc : c ∈ safe_name s) :
    keepChar c = true := by
  unfold safe_name at hc
  exact List.of_mem_filter (mem_pyStrip hc)

/-- C3 (counterexample): the claim fails on the input "A\tB".  The kept
character class of `re.sub(r'[^\w\s-]', '', s)` includes every whitespace
character, and `.strip()` only removes whitespace at the ends, so the
interior tab survives into the directory-name component even though it is
outside `[A-Za-z0-9_ -]`. -/
theorem C3_counterexample :
    ¬ (∀ c ∈ safe_name tabInput, specAllowedChar c = true) := by
  decide

/-- C3 (amended): for every input string the directory-name component
contains only word characters (letters, digits, underscore), whitespace
characters and hyphens — not only `[A-Za-z0-9_ -]` — with no leading or
trailing whitespace, and the filename slug additionally contains no space
character (spaces, but not other whitespace, are replaced by
underscores). -/
theorem C3_amended (s : Str) :
    (∀ c ∈ safe_name s, keepChar c = true) ∧
    (∀ h, (safe_name s).head? = some h → pyIsSpaceChar h = false) ∧
    (∀ h, (safe_name s).getLast? = some h → pyIsSpaceChar h = false) ∧
    (∀ c ∈ safe_role_fn s, keepChar c = true ∧ c ≠ ' ') := by
  refine ⟨fun c hc => mem_safe_name_keep hc,
    fun h hh => pyStrip_head_not_space _ _ hh,
    fun h hh => pyStrip_getLast_not_space _ _ hh,
    fun c hc => ?_⟩
  unfold safe_role_fn at hc
  rw [List.mem_map] at hc
  obtain ⟨c', hc', hf⟩ := hc
  have hk := mem_safe_name_keep hc'
  by_cases hsp : c' = ' '
  · subst hsp
    simp at hf
    subst hf
    exact ⟨by decide, by decide⟩
  · rw [if_neg hsp] at hf
    subst hf
    exact ⟨hk, hsp⟩

/-- C3 (witness for the amended theorem): instantiated on the concrete role
"Data Engineer!", whose filename slug is "Data_Engineer". -/
theorem C3_amended_witness : keepChar 'D' = true ∧ 'D' ≠ ' ' :=
  (C3_amended ("Data Engineer!".toList)).2.2.2 'D' (by decide)

/-!
JSON values and the tolerant extraction of `extract_info_from_jd`.

Python values as produced by `json.loads` are modelled by `PyVal`.  The
parser below follows the JSON grammar accepted by Python's json module on
the escape-free core: objects, arrays, strings with the single-character
escapes, integers, floats (kept as their raw token: the pipeline never
computes with a float, it only matters that a float is not a string),
true/false/null and the NaN/Infinity extensions.  Unicode escapes
(backslash-u) are outside the model.
-/

/-- Python values produced by `json.loads`.  A float is kept as its raw
source token: the pipeline only ever asks whether a value is a string. -/
inductive PyVal where
  | str (s : Str)
  | int (n : Int)
  | float (raw : Str)
  | bool (b : Bool)
  | null
  | list (xs : List PyVal)
  | dict (kvs : List (Str × PyVal))

/-- Whitespace accepted by the JSON grammar between tokens. -/
def jsonWs (c : Char) : Bool :=
  c = ' ' || c = '\t' || c = '\n' || c = '\r'

/-- Skip JSON whitespace. -/
def skipWs (s : Str) : Str := s.dropWhile jsonWs

/-- Parse the body of a JSON string, after the opening quote.  Returns the
decoded body and the rest of the input after the closing quote. -/
def parseStringBody : Nat → Str → Option (Str × Str)
  | 0, _ => none
  | _ + 1, [] => none
  | f + 1, c :: rest =>
    if c = '"' then some ([], rest)
    else if c = '\\' then
      match rest with
      | [] => none
      | e :: rest2 =>
        let dec : Option Char :=
          if e = '"' then some '"'
          else if e = '\\' then some '\\'
          else if e = '/' then some '/'
          else if e = 'b' then some '\x08'
          else if e = 'f' then some '\x0c'
          else if e = 'n' then some '\n'
          else if e = 'r' then some '\r'
          else if e = 't' then some '\t'
          else none
        match dec with
        | none => none
        | some d =>
          match parseStringBody f rest2 with
          | none => none
          | some (body, rem) => some (d :: body, rem)
    else if c.toNat < 32 then none
    else
      match parseStringBody f rest with
      | none => none
      | some (body, rem) => some (c :: body, rem)

/-- Numeric value of a string of decimal digits. -/
def digitsToNat (ds : Str) : Nat :=
  ds.foldl (fun a c => a * 10 + (c.toNat - 48)) 0

/-- Parse a JSON number (or the -Infinity extension).  Integer tokens give
`PyVal.int`; tokens with a fraction or exponent give `PyVal.float` carrying
the raw token text. -/
def parseNumber (s : Str) : Option (PyVal × Str) :=
  let neg := match s with | '-' :: _ => true | _ => false
  let s1 := if neg then s.drop 1 else s
  if s1.take 8 = "Infinity".toList then
    some (.float (s.take (if neg then 9 else 8)), s1.drop 8)
  else
    let intDs := s1.takeWhile Char.isDigit
    let r1 := s1.dropWhile Char.isDigit
    if intDs = [] then none
    else if 1 < intDs.length && intDs.head? = some '0' then none
    else
      let fr : Str × Str × Bool :=
        match r1 with
        | '.' :: r => (r.takeWhile Char.isDigit, r.dropWhile Char.isDigit, true)
        | _ => ([], r1, false)
      let fracDs := fr.1
      let r2 := fr.2.1
      let hasFrac := fr.2.2
      if hasFrac && fracDs = [] then none
      else
        let ex : Str × Str × Bool :=
          match r2 with
          | e :: r =>
            if e = 'e' || e = 'E' then
              match r with
              | sgn :: r' =>
                if sgn = '+' || sgn = '-' then
                  (r'.takeWhile Char.isDigit, r'.dropWhile Char.isDigit, true)
                else (r.takeWhile Char.isDigit, r.dropWhile Char.isDigit, true)
              | [] => ([], [], true)
            else ([], r2, false)
          | [] => ([], [], false)
        let expDs := ex.1
        let r3 := ex.2.1
        let hasExp := ex.2.2
        if hasExp && expDs = [] then none
        else if hasFrac || hasExp then
          some (.float (s.take (s.length - r3.length)), r3)
        else
          let v : Int := Int.ofNat (digitsToNat intDs)
          some (.int (if neg then -v else v), r3)

/-- Parser mode: a JSON value, the members of an object after its opening
brace, or the items of an array after its opening bracket (each with the
entries read so far). -/
inductive PMode where
  | value
  | members (acc : List (Str × PyVal))
  | items (acc : List PyVal)

/-- Fuelled recursive-descent JSON parser.  In `members` mode, later
duplicates of a key are appended and shadow earlier ones via `pyDictGet`,
as in a Python dict. -/
def parseStep : Nat → PMode → Str → Option (PyVal × Str)
  | 0, _, _ => none
  | f + 1, .value, s =>
    (match skipWs s with
     | [] => none
     | '{' :: rest =>
       (match skipWs rest with
        | '}' :: r2 => some (.dict [], r2)
        | _ => parseStep f (.members []) rest)
     | '[' :: rest =>
       (match skipWs rest with
        | ']' :: r2 => some (.list [], r2)
        | _ => parseStep f (.items []) rest)
     | '"' :: rest =>
       (match parseStringBody (rest.length + 1) rest with
        | some (body, rem) => some (.str body, rem)
        | none => none)
     | 't' :: rest =>
       if rest.take 3 = ['r', 'u', 'e'] then some (.bool true, rest.drop 3)
       else none
     | 'f' :: rest =>
       if rest.take 4 = ['a', 'l', 's', 'e'] then some (.bool false, rest.drop 4)
       else none
     | 'n' :: rest =>
       if rest.take 3 = ['u', 'l', 'l'] then some (.null, rest.drop 3) else none
     | 'N' :: rest =>
       if rest.take 2 = ['a', 'N'] then some (.float ['N', 'a', 'N'], rest.drop 2)
       else none
     | s' => parseNumber s')
  | f + 1, .members acc, s =>
    (match skipWs s with
     | '"' :: rest =>
       (match parseStringBody (rest.length + 1) rest with
        | none => none
        | some (key, r1) =>
          match skipWs r1 with
          | ':' :: r2 =>
            (match parseStep f .value r2 with
             | none => none
             | some (v, r3) =>
               match skipWs r3 with
               | ',' :: r4 => parseStep f (.members (acc ++ [(key, v)])) r4
               | '}' :: r4 => some (.dict (acc ++ [(key, v)]), r4)
               | _ => none)
          | _ => none)
     | _ => none)
  | f + 1, .items acc, s =>
    (match parseStep f .value s with
     | none => none
     | some (v, r1) =>
       match skipWs r1 with
       | ',' :: r2 => parseStep f (.items (acc ++ [v])) r2
       | ']' :: r2 => some (.list (acc ++ [v]), r2)
       | _ => none)

/-- Parse a JSON value at the head of the input, fuelled. -/
def parseVal (f : Nat) (s : Str) : Option (PyVal × Str) :=
  parseStep f .value s

/-- Model of `json.loads`: parse one JSON value and require that only
whitespace follows it. -/
def pyJsonLoads (s : Str) : Option PyVal :=
  match parseVal (2 * s.length + 8) s with
  | some (v, rest) => if skipWs rest = [] then some v else none
  | none => none

/-- Model of `re.search(r'\x7b.*\x7d', response, re.DOTALL)`: the match, when
it exists, runs from the first opening brace to the last closing brace of
the string (leftmost match start, greedy extent). -/
def findJsonBlob (s : Str) : Option Str :=
  match s.findIdx? (fun c => c = '{') with
  | none => none
  | some i =>
    let tail := s.drop i
    match tail.reverse.findIdx? (fun c => c = '}') with
    | none => none
    | some k => some (tail.take (tail.length - k))

/-- Python `dict.get(key, default)` on the association list produced by the
parser; a later duplicate key shadows an earlier one, as in a dict built by
`json.loads`. -/
def pyDictGet (kvs : List (Str × PyVal)) (k : Str) (dflt : PyVal) : PyVal :=
  match kvs.reverse.find? (fun kv => kv.1 = k) with
  | some kv => kv.2
  | none => dflt

/-- Lookup without a default, for stating which keys are present. -/
def pyDictFind (kvs : List (Str × PyVal)) (k : Str) : Option PyVal :=
  (kvs.reverse.find? (fun kv => kv.1 = k)).map (fun kv => kv.2)

/-- The whole-response recovery performed by `extract_info_from_jd`: an
empty (after strip) response, a response with no brace-delimited blob, and
a blob that fails to parse all recover nothing. -/
def recoverJson (response : Str) : Option PyVal :=
  if pyStrip response = [] then none
  else
    match findJsonBlob response with
    | none => none
    | some blob => pyJsonLoads blob

/-!
State and effect model of logic.py.  Progress events, the output
filesystem, the lazily initialised AI clients and the LLM call counter are
one explicit state record `St`; the external world (credentials in the
environment, the current date, the LLM responses indexed by call order,
template reads, directory creation and file writes, each able to raise) is
an oracle record `World`.
-/

/-- Severity tags of the progress callback. -/
inductive Severity where
  | info
  | working
  | success
  | error
deriving DecidableEq

/-- A progress event: one invocation of `status_callback`. -/
structure Event where
  message : Str
  severity : Severity
deriving DecidableEq

/-- Outcome of one LLM SDK call: the returned text, or the SDK raising. -/
inductive CallOutcome where
  | ok (text : Str)
  | exn (msg : Str)

/-- Outcome of reading a template file. -/
inductive ReadOutcome where
  | ok (content : Str)
  | notFound
  | err (msg : Str)

/-- The external world: environment, clock and effect oracles.  `llm n` is
the outcome of the (n+1)-th SDK call of the process; `mkdirFail` and
`writeFail` give the exception message when the corresponding filesystem
operation raises at a path, `none` when it succeeds. -/
structure World where
  anthropicKey : Option Str
  geminiKey : Option Str
  date : Str
  dateDMY : Str
  llm : Nat → CallOutcome
  readFile : Str → ReadOutcome
  mkdirFail : Str → Option Str
  writeFail : Str → Option Str

/-- The mutable state of the Python module during a run: the chronological
list of progress events, the created directories, the written files (path
with content, later writes shadowing earlier ones), the two lazy client
flags, the number of LLM calls made so far, and the model name of every
LLM call in order. -/
structure St where
  events : List Event
  dirs : List Str
  files : List (Str × Str)
  claudeClient : Bool
  geminiConfigured : Bool
  callCount : Nat
  calls : List Str
deriving DecidableEq

/-- Fresh interpreter state: nothing initialised, nothing written. -/
def st0 : St := ⟨[], [], [], false, false, 0, []⟩

/-- Emit one progress event. -/
def emit (st : St) (m : Str) (sev : Severity) : St :=
  { st with events := st.events ++ [⟨m, sev⟩] }

/-- Python truthiness of an optional string (`None` and `""` are falsy). -/
def truthy : Option Str → Bool
  | some s => !s.isEmpty
  | none => false

/-- Number of error-severity events in a list. -/
def errCount (evs : List Event) : Nat :=
  (evs.filter (fun e => e.severity = Severity.error)).length

/-- Python `str.capitalize`. -/
def capitalizeStr : Str → Str
  | [] => []
  | c :: r => c.toUpper :: r.map Char.toLower

/-- Decimal rendering of a natural number. -/
def natDigits (n : Nat) : Str := Nat.toDigits 10 n

/-- Python `str` of an integer. -/
def intStr (n : Int) : Str :=
  if n < 0 then '-' :: natDigits n.natAbs else natDigits n.natAbs

/-- Rendering of a `PyVal` inside an f-string.  Only the string case is
ever inspected by a claim; the rendering of containers is abbreviated. -/
def pyValStr : PyVal → Str
  | .str s => s
  | .int n => intStr n
  | .float raw => raw
  | .bool b => if b then "True".toList else "False".toList
  | .null => "None".toList
  | .list _ => "<list>".toList
  | .dict _ => "<dict>".toList

/-- Provider tag "claude". -/
def claudeTag : Str := "claude".toList

/-- Provider tag "gemini". -/
def geminiTag : Str := "gemini".toList

/-- The model catalog of logic.py (lines 34-37), as a lookup from provider
tag to the (fast, powerful) pair; `none` models the dict raising KeyError. -/
def MODELS (provider : Str) : Option (Str × Str) :=
  if provider = claudeTag then
    some ("claude-3-5-haiku-20241022".toList, "claude-3-5-haiku-20241022".toList)
  else if provider = geminiTag then
    some ("gemini-1.5-flash-latest".toList, "gemini-1.5-pro-latest".toList)
  else none

/-- The fixed persona string sent as system directive to every LLM call. -/
def SYSTEM_PROMPT : Str :=
  "You are an expert German-based career assistant named \"JobBot\".".toList

/-- Prompts are modelled as structured data carrying the stage and its
inputs; the surrounding literal prompt text of logic.py does not influence
any observable behaviour of the pipeline model (the LLM is an oracle). -/
inductive Prompt where
  | extraction (jd : Str)
  | tailoring (jd cv : Str)
  | letter (jd cv core ref date : Str)

-- Progress-message texts (f-string interpolations become concatenation;
-- quote characters around interpolated names are elided).

def callingMsg (provider model : Str) : Str :=
  "Calling ".toList ++ provider ++ " model (".toList ++ model ++
    ")... This may take a moment.".toList

def apiFailMsg (provider m : Str) : Str :=
  "API call to ".toList ++ provider ++ " failed: ".toList ++ m

def templateNotFoundMsg (path : Str) : Str :=
  "Template file not found: ".toList ++ path

def readErrMsg (path m : Str) : Str :=
  "Error reading file ".toList ++ path ++ ": ".toList ++ m

def emptyExtractMsg : Str :=
  "AI returned an empty response for company/role extraction.".toList

/-- Message of the classification parse-failure branch; the interpolated
exception detail is elided. -/
def parseFailMsg : Str :=
  "Failed to parse company/role from AI response.".toList

def dirCreatedMsg (leaf : Str) : Str :=
  "Created application folder: ".toList ++ leaf

def dirFailMsg (m : Str) : Str :=
  "Failed to create directory. Error: ".toList ++ m

/-- Exception text of `re.sub` applied to a non-string value. -/
def typeErrorMsg : Str :=
  "expected string or bytes-like object".toList

def savedHtmlMsg (name : Str) : Str :=
  "Saved tailored HTML CV to ".toList ++ name

def savedPdfMsg (name : Str) : Str :=
  "Saved tailored PDF CV to ".toList ++ name

def savedTxtMsg (name : Str) : Str :=
  "Saved Anschreiben to ".toList ++ name

def saveErrMsg (m : Str) : Str :=
  "Error saving files: ".toList ++ m

def startingMsg (provider : Str) : Str :=
  "Starting Process with ".toList ++ capitalizeStr provider ++ "...".toList

def jdEmptyMsg : Str :=
  "Job Description text is empty. Process stopped.".toList

def identifiedMsg (role company : PyVal) : Str :=
  "Identified Role: ".toList ++ pyValStr role ++ " at ".toList ++ pyValStr company

def cvOkMsg : Str := "Successfully tailored CV with AI.".toList

def cvFailMsg : Str := "AI failed to generate CV content. Process stopped.".toList

def anOkMsg : Str := "Successfully generated Anschreiben with AI.".toList

def anFailMsg : Str :=
  "AI failed to generate Anschreiben content. Process stopped.".toList

def keyErrorMsg (provider : Str) : Str := "KeyError: ".toList ++ provider

-- Paths.  BASE_DIR resolves to the parent directory of logic.py; its
-- concrete value never matters, only its role as a filesystem key.

def BASE_DIR : Str := "<logic.py parent>".toList

def TEMPLATE_CV_PATH : Str := BASE_DIR ++ "/templates/cv_template.html".toList

def CORE_INFO_PATH : Str := BASE_DIR ++ "/templates/core_info.txt".toList

def REFERENCE_CV_PATH : Str := BASE_DIR ++ "/templates/reference_cv.txt".toList

def OUTPUT_DIR : Str :=
  "/Users/zohaibmalik/DATA ENGINEERING/Job_Automator/Job Applications".toList

/-- The per-run directory path of `create_job_directory`. -/
def dirName (date company role : Str) : Str :=
  OUTPUT_DIR ++ "/".toList ++ date ++ " - ".toList ++ safe_name company ++
    " - ".toList ++ safe_name role

/-- The final component of the per-run directory (its `.name`). -/
def dirLeafName (date company role : Str) : Str :=
  date ++ " - ".toList ++ safe_name company ++ " - ".toList ++ safe_name role

def htmlPath (output_dir fn : Str) : Str :=
  output_dir ++ "/CV_ZohaibMalik_".toList ++ fn ++ ".html".toList

def pdfPath (output_dir fn : Str) : Str :=
  output_dir ++ "/CV_ZohaibMalik_".toList ++ fn ++ ".pdf".toList

def txtPath (output_dir : Str) : Str :=
  output_dir ++ "/Anschreiben.txt".toList

/-- The external HTML-to-PDF engine, modelled as an uninterpreted injective
tagging of its input. -/
def pdfRender (html : Str) : Str := "%PDF ".toList ++ html

/-- Overwrite-in-place file write on the association-list filesystem. -/
def fsWrite (files : List (Str × Str)) (p c : Str) : List (Str × Str) :=
  files.filter (fun kv => !decide (kv.1 = p)) ++ [(p, c)]

/-- Lookup in the association-list filesystem. -/
def fsRead (files : List (Str × Str)) (p : Str) : Option Str :=
  (files.find? (fun kv => kv.1 = p)).map (fun kv => kv.2)

/-- Model of `initialize_ai_provider` (logic.py lines 58-79).  A provider
tag outside the two known ones matches neither branch: the function
returns True without touching anything. -/
def initialize_ai_provider (provider : Str) (w : World) (st : St) : Bool × St :=
  if provider = claudeTag ∧ st.claudeClient = false then
    if truthy w.anthropicKey = false then
      (false, emit st "ANTHROPIC_API_KEY is not set.".toList .error)
    else
      (true, emit { st with claudeClient := true }
        "Claude client initialized.".toList .info)
  else if provider = geminiTag ∧ st.geminiConfigured = false then
    if truthy w.geminiKey = false then
      (false, emit st "GEMINI_API_KEY is not set.".toList .error)
    else
      (true, emit { st with geminiConfigured := true }
        "Gemini client initialized.".toList .info)
  else (true, st)

/-- Model of `call_ai` (logic.py lines 82-103).  Any SDK exception is
caught, reported with the underlying message, and turned into `None`.  For
a provider tag outside the two known ones the Python function falls
through the try block and returns `None` silently. -/
def call_ai (provider model_name : Str) (prompt : Prompt) (system_prompt : Str)
    (w : World) (st : St) : Option Str × St :=
  let st1 := emit st (callingMsg provider model_name) .working
  if provider = claudeTag ∨ provider = geminiTag then
    let st2 := { st1 with callCount := st1.callCount + 1,
                          calls := st1.calls ++ [model_name] }
    match w.llm st1.callCount with
    | .ok t => (some t, st2)
    | .exn m => (none, emit st2 (apiFailMsg provider m) .error)
  else (none, st1)

/-- Model of `read_file_content` (logic.py lines 106-115). -/
def read_file_content (path : Str) (w : World) (st : St) : Option Str × St :=
  match w.readFile path with
  | .ok c => (some c, st)
  | .notFound => (none, emit st (templateNotFoundMsg path) .error)
  | .err m => (none, emit st (readErrMsg path m) .error)

def unknownCompany : Str := "Unknown Company".toList

def unknownRole : Str := "Unknown Role".toList

def companyKey : Str := "company_name".toList

def jobTitleKey : Str := "job_title".toList

/-- The sentinel classification. -/
def sentinelPair : PyVal × PyVal := (.str unknownCompany, .str unknownRole)

/-- Model of `extract_info_from_jd` (logic.py lines 118-144): call the LLM,
treat a None or blank response as an error with sentinels, otherwise find
the brace-delimited blob, parse it, and read the two keys with sentinel
defaults; any parse failure is caught into an error event plus
sentinels. -/
def extract_info_from_jd (provider model_id jd_text : Str) (system_prompt : Str)
    (w : World) (st : St) : (PyVal × PyVal) × St :=
  let r := call_ai provider model_id (.extraction jd_text) system_prompt w st
  let st1 := r.2
  match r.1 with
  | none => (sentinelPair, emit st1 emptyExtractMsg .error)
  | some response =>
    if pyStrip response = [] then (sentinelPair, emit st1 emptyExtractMsg .error)
    else
      match findJsonBlob response with
      | none => (sentinelPair, emit st1 parseFailMsg .error)
      | some blob =>
        match pyJsonLoads blob with
        | some (.dict kvs) =>
          ((pyDictGet kvs companyKey (.str unknownCompany),
            pyDictGet kvs jobTitleKey (.str unknownRole)), st1)
        | some _ => (sentinelPair, emit st1 parseFailMsg .error)
        | none => (sentinelPair, emit st1 parseFailMsg .error)

/-- Model of `create_job_directory` (logic.py lines 147-158).  `mkdir` with
`parents=True, exist_ok=True` is idempotent; a non-string argument makes
`re.sub` raise TypeError, caught by the surrounding except. -/
def create_job_directory (company role : PyVal) (w : World) (st : St) :
    Option Str × St :=
  match company, role with
  | .str c, .str r =>
    let p := dirName w.date c r
    (match w.mkdirFail p with
     | some m => (none, emit st (dirFailMsg m) .error)
     | none =>
       (some p,
        emit { st with dirs := if p ∈ st.dirs then st.dirs else st.dirs ++ [p] }
          (dirCreatedMsg (dirLeafName w.date c r)) .success))
  | _, _ => (none, emit st (dirFailMsg typeErrorMsg) .error)

/-- Model of `tailor_cv` (logic.py lines 161-179): build the tailoring
prompt and delegate to `call_ai`. -/
def tailor_cv (provider model_id jd_text cv_template_html system_prompt : Str)
    (w : World) (st : St) : Option Str × St :=
  call_ai provider model_id (.tailoring jd_text cv_template_html)
    system_prompt w st

/-- Model of `generate_anschreiben` (logic.py lines 182-209): build the
letter prompt (which embeds the current date) and delegate to `call_ai`. -/
def generate_anschreiben
    (provider model_id jd_text tailored_cv_html core_info ref_cv_text
      system_prompt : Str) (w : World) (st : St) : Option Str × St :=
  call_ai provider model_id
    (.letter jd_text tailored_cv_html core_info ref_cv_text w.dateDMY)
    system_prompt w st

/-- Model of `save_files` (logic.py lines 212-232): write HTML, then PDF,
then TXT, in that order; the first write that raises is caught, reported
once, and ends the function (partial files remain).  The function returns
nothing to its caller. -/
def save_files (output_dir : Str) (company role : PyVal) (cv an : Str)
    (w : World) (st : St) : St :=
  match role with
  | .str r =>
    let fn := safe_role_fn r
    let hp := htmlPath output_dir fn
    (match w.writeFail hp with
     | some m => emit st (saveErrMsg m) .error
     | none =>
       let st2 := emit { st with files := fsWrite st.files hp cv }
         (savedHtmlMsg ("CV_ZohaibMalik_".toList ++ fn ++ ".html".toList)) .success
       let pp := pdfPath output_dir fn
       match w.writeFail pp with
       | some m => emit st2 (saveErrMsg m) .error
       | none =>
         let st3 := emit { st2 with files := fsWrite st2.files pp (pdfRender cv) }
           (savedPdfMsg ("CV_ZohaibMalik_".toList ++ fn ++ ".pdf".toList)) .success
         let tp := txtPath output_dir
         match w.writeFail tp with
         | some m => emit st3 (saveErrMsg m) .error
         | none =>
           emit { st3 with files := fsWrite st3.files tp an }
             (savedTxtMsg "Anschreiben.txt".toList) .success)
  | _ => emit st (saveErrMsg typeErrorMsg) .error

/-- Result of a Python call: a value, or an uncaught exception. -/
inductive PyResult (α : Type) where
  | ret (a : α)
  | raise (msg : Str)
deriving DecidableEq

/-- Model of `run_job_application_logic` (logic.py lines 239-284), the
pipeline driver.  Note two faithfully reproduced quirks: an unknown
provider tag survives initialisation and then raises KeyError at the model
catalog lookup, and the return value after `save_files` is the job folder
regardless of whether saving succeeded. -/
def run_job_application_logic (provider jd_text : Str) (w : World) (st : St) :
    PyResult (Option Str) × St :=
  let ir := initialize_ai_provider provider w st
  if ir.1 = false then (.ret none, ir.2)
  else
    match MODELS provider with
    | none => (.raise (keyErrorMsg provider), ir.2)
    | some models =>
      let st1 := emit ir.2 (startingMsg provider) .info
      if pyStrip jd_text = [] then
        (.ret none, emit st1 jdEmptyMsg .error)
      else
        let er := extract_info_from_jd provider models.1 jd_text SYSTEM_PROMPT w st1
        let company := er.1.1
        let role := er.1.2
        let st2 := emit er.2 (identifiedMsg role company) .success
        let dr := create_job_directory company role w st2
        match dr.1 with
        | none => (.ret none, dr.2)
        | some job_folder =>
          let r1 := read_file_content TEMPLATE_CV_PATH w dr.2
          let r2 := read_file_content CORE_INFO_PATH w r1.2
          let r3 := read_file_content REFERENCE_CV_PATH w r2.2
          match r1.1, r2.1, r3.1 with
          | some cvTv, some civ, some rcv =>
            if cvTv = [] ∨ civ = [] ∨ rcv = [] then (.ret none, r3.2)
            else
              let tr := tailor_cv provider models.2 jd_text cvTv SYSTEM_PROMPT w r3.2
              match tr.1 with
              | none => (.ret none, emit tr.2 cvFailMsg .error)
              | some tc =>
                if pyStrip tc = [] then (.ret none, emit tr.2 cvFailMsg .error)
                else
                  let st3 := emit tr.2 cvOkMsg .success
                  let ar := generate_anschreiben provider models.2 jd_text
                    tc civ rcv SYSTEM_PROMPT w st3
                  match ar.1 with
                  | none => (.ret none, emit ar.2 anFailMsg .error)
                  | some an =>
                    if pyStrip an = [] then
                      (.ret none, emit ar.2 anFailMsg .error)
                    else
                      let st4 := emit ar.2 anOkMsg .success
                      (.ret (some job_folder),
                       save_files job_folder company role tc an w st4)
          | _, _, _ => (.ret none, r3.2)

/-!
Concrete worlds used by the closed theorems.  `wHappy` makes every
external effect succeed; the variants break exactly one effect.
-/

/-- A classifier response that parses cleanly. -/
def jsonGoodC : Str :=
  ['{'] ++ "\"company_name\": \"ACME GmbH\", \"job_title\": \"Data Engineer\"".toList
    ++ ['}']

def acmeCompany : Str := "ACME GmbH".toList

def dataEngineer : Str := "Data Engineer".toList

def jdSample : Str := "We hire a data engineer.".toList

def cvSample : Str := "<html>cv</html>".toList

def letterSample : Str := "Sehr geehrte Damen und Herren,".toList

def happyDate : Str := "2026-10-12".toList

/-- World in which every external effect succeeds. -/
def wHappy : World where
  anthropicKey := some "k".toList
  geminiKey := some "g".toList
  date := happyDate
  dateDMY := "12.10.2026".toList
  llm := fun n =>
    if n = 0 then .ok jsonGoodC
    else if n = 1 then .ok cvSample
    else .ok letterSample
  readFile := fun _ => .ok "template text".toList
  mkdirFail := fun _ => none
  writeFail := fun _ => none

/-- The output directory of the happy run. -/
def happyDir : Str := dirName happyDate acmeCompany dataEngineer

/-- The output directory of a run whose classification fell back to the
sentinels. -/
def sentinelDir : Str := dirName happyDate unknownCompany unknownRole

/-- The HTML artifact path of the happy run. -/
def happyHtmlPath : Str := htmlPath happyDir (safe_role_fn dataEngineer)

/-- Happy world except that writing the HTML artifact raises. -/
def wWriteFailHtml : World :=
  { wHappy with writeFail := fun p => if p = happyHtmlPath then some "disk full".toList else none }

/-- Happy world except that the classification SDK call raises. -/
def wClassifierRaises : World :=
  { wHappy with llm := fun n =>
      if n = 0 then .exn "boom".toList else wHappy.llm n }

/-- Happy world except that all three template files are missing. -/
def wTemplatesMissing : World :=
  { wHappy with readFile := fun _ => .notFound }

/-- C1 (code evaluated at the failing input): with every stage succeeding
except that the HTML write raises, the run reports exactly one error
ProgressEvent and stops, but `run_job_application_logic` still returns the
output directory path — not null — because the driver never checks the
outcome of `save_files` and line 284 returns `job_folder` unconditionally,
contradicting its own comment "Return the path to the output folder on
success". -/
theorem C1_write_failure_returns_path :
    (run_job_application_logic claudeTag jdSample wWriteFailHtml st0).1 =
      .ret (some happyDir) ∧
    errCount (run_job_application_logic claudeTag jdSample wWriteFailHtml st0).2.events = 1 ∧
    (run_job_application_logic claudeTag jdSample wWriteFailHtml st0).2.files = [] := by
  decide

/-- C2 (counterexample): the claim is false as stated.  When the LLM SDK
raises during the classification call, the pipeline does not return null:
the None response is handled like an empty classifier reply, the sentinel
classification is substituted, and the run continues to completion,
returning the sentinel-named output directory. -/
theorem C2_counterexample :
    (run_job_application_logic claudeTag jdSample wClassifierRaises st0).1 =
      .ret (some sentinelDir) := by
  decide

/-- C4 (counterexample): the claim is false as stated.  Calling run with
provider tag "openai" does not produce any error ProgressEvent and does
not return null: initialisation matches neither known provider and
succeeds vacuously, and the model-catalog lookup then raises KeyError to
the caller with no event emitted. -/
theorem C4_counterexample :
    (run_job_application_logic "openai".toList jdSample wHappy st0).1 =
      .raise (keyErrorMsg "openai".toList) ∧
    errCount (run_job_application_logic "openai".toList jdSample wHappy st0).2.events = 0 := by
  decide

/-- C5 (counterexample): the claim is false as stated.  With all three
template files missing, the run terminates with null after emitting three
error ProgressEvents — one per missing file — not exactly one. -/
theorem C5_counterexample :
    (run_job_application_logic claudeTag jdSample wTemplatesMissing st0).1 =
      .ret none ∧
    errCount (run_job_application_logic claudeTag jdSample wTemplatesMissing st0).2.events = 3 := by
  decide

/-!
Stage-shape lemmas: how each stage function transforms the threaded state,
under hypotheses on the oracles.  These drive the proofs of the claims
that quantify over worlds.
-/

/-- State transformation shared by every LLM call: the working event, the
bumped call counter and the recorded model name. -/
def callStep (st : St) (provider model_name : Str) : St :=
  { st with
    events := st.events ++ [⟨callingMsg provider model_name, .working⟩],
    callCount := st.callCount + 1,
    calls := st.calls ++ [model_name] }

theorem errCount_append (a b : List Event) :
    errCount (a ++ b) = errCount a + errCount b := by
  unfold errCount
  rw [List.filter_append, List.length_append]

theorem call_ai_ok {provider : Str} (model_name : Str) (prompt : Prompt)
    (sp : Str) {w : World} {st : St} {t : Str}
    (hv : provider = claudeTag ∨ provider = geminiTag)
    (h : w.llm st.callCount = .ok t) :
    call_ai provider model_name prompt sp w st =
      (some t, callStep st provider model_name) := by
  unfold call_ai
  rw [if_pos hv]
  have hc : (emit st (callingMsg provider model_name) .working).callCount =
      st.callCount := rfl
  rw [hc, h]
  rfl

theorem call_ai_exn {provider : Str} (model_name : Str) (prompt : Prompt)
    (sp : Str) {w : World} {st : St} {m : Str}
    (hv : provider = claudeTag ∨ provider = geminiTag)
    (h : w.llm st.callCount = .exn m) :
    call_ai provider model_name prompt sp w st =
      (none, emit (callStep st provider model_name) (apiFailMsg provider m)
        .error) := by
  unfold call_ai
  rw [if_pos hv]
  have hc : (emit st (callingMsg provider model_name) .working).callCount =
      st.callCount := rfl
  rw [hc, h]
  rfl

theorem pyDictGet_eq_find (kvs : List (Str × PyVal)) (k : Str) (d : PyVal) :
    pyDictGet kvs k d = (pyDictFind kvs k).getD d := by
  unfold pyDictGet pyDictFind
  cases kvs.reverse.find? (fun kv => kv.1 = k) <;> rfl

/-- Shape of `extract_info_from_jd` when the response parses to a dict. -/
theorem extract_parsed {provider : Str} (model_id jd sp : Str) {w : World}
    {st : St} {response : Str} {kvs : List (Str × PyVal)}
    (hv : provider = claudeTag ∨ provider = geminiTag)
    (hresp : w.llm st.callCount = .ok response)
    (hrec : recoverJson response = some (.dict kvs)) :
    extract_info_from_jd provider model_id jd sp w st =
      ((pyDictGet kvs companyKey (.str unknownCompany),
        pyDictGet kvs jobTitleKey (.str unknownRole)),
       callStep st provider model_id) := by
  unfold extract_info_from_jd
  rw [call_ai_ok model_id (.extraction jd) sp hv hresp]
  unfold recoverJson at hrec
  simp only []
  split
  · next hs =>
    rw [if_pos hs] at hrec
    exact absurd hrec (by simp)
  · next hs =>
    rw [if_neg hs] at hrec
    split
    · next hb =>
      rw [hb] at hrec
      exact absurd hrec (by simp)
    · next blob hb =>
      rw [hb] at hrec
      have hrec2 : pyJsonLoads blob = some (PyVal.dict kvs) := hrec
      split
      · next kvs1 heq =>
        rw [hrec2] at heq
        have hk : kvs = kvs1 := by
          simp only [Option.some.injEq, PyVal.dict.injEq] at heq
          exact heq
        rw [hk]
      · next val hne heq =>
        rw [hrec2] at heq
        have hval : PyVal.dict kvs = val := by simpa using heq
        exact ((hne kvs) hval.symm).elim
      · next heq =>
        rw [hrec2] at heq
        exact absurd heq (by simp)

/-- Shape of `extract_info_from_jd` when nothing can be recovered from the
response: one error event (whose message depends on the failure mode) and
the sentinel classification. -/
theorem extract_unrecoverable {provider : Str} (model_id jd sp : Str)
    {w : World} {st : St} {response : Str}
    (hv : provider = claudeTag ∨ provider = geminiTag)
    (hresp : w.llm st.callCount = .ok response)
    (hrec : recoverJson response = none) :
    ∃ msg, (msg = emptyExtractMsg ∨ msg = parseFailMsg) ∧
      extract_info_from_jd provider model_id jd sp w st =
        (sentinelPair, emit (callStep st provider model_id) msg .error) := by
  unfold extract_info_from_jd
  rw [call_ai_ok model_id (.extraction jd) sp hv hresp]
  unfold recoverJson at hrec
  simp only []
  by_cases hs : pyStrip response = []
  · refine ⟨emptyExtractMsg, Or.inl rfl, ?_⟩
    rw [if_pos hs]
  · rw [if_neg hs] at hrec
    refine ⟨parseFailMsg, Or.inr rfl, ?_⟩
    rw [if_neg hs]
    split
    · next hb => rfl
    · next blob hb =>
      rw [hb] at hrec
      have hrec2 : pyJsonLoads blob = none := hrec
      split
      · next kvs1 heq =>
        rw [hrec2] at heq
        exact absurd heq (by simp)
      · next val hne heq => rfl
      · next heq => rfl

/-- Shape of `extract_info_from_jd` when the SDK raises: the API failure is
reported, then the None response is treated as empty, and the sentinels
are substituted — the stage never aborts. -/
theorem extract_exn {provider : Str} (model_id jd sp : Str) {w : World}
    {st : St} {m : Str}
    (hv : provider = claudeTag ∨ provider = geminiTag)
    (hresp : w.llm st.callCount = .exn m) :
    extract_info_from_jd provider model_id jd sp w st =
      (sentinelPair,
       emit (emit (callStep st provider model_id) (apiFailMsg provider m)
         .error) emptyExtractMsg .error) := by
  unfold extract_info_from_jd
  rw [call_ai_exn model_id (.extraction jd) sp hv hresp]

/-- C10: when the classifier response parses to a JSON object that is
missing only one of the keys company_name / job_title, only the missing
key is replaced by its sentinel value, so the returned classification can
mix a real value with a sentinel, and no error ProgressEvent is
emitted. -/
theorem C10_partial_keys (provider model_id jd sp : Str) (w : World) (st : St)
    (response : Str) (kvs : List (Str × PyVal)) (v : PyVal)
    (hv : provider = claudeTag ∨ provider = geminiTag)
    (hresp : w.llm st.callCount = .ok response)
    (hrec : recoverJson response = some (.dict kvs)) :
    (pyDictFind kvs jobTitleKey = none → pyDictFind kvs companyKey = some v →
      (extract_info_from_jd provider model_id jd sp w st).1 =
        (v, .str unknownRole)) ∧
    (pyDictFind kvs companyKey = none → pyDictFind kvs jobTitleKey = some v →
      (extract_info_from_jd provider model_id jd sp w st).1 =
        (.str unknownCompany, v)) ∧
    errCount (extract_info_from_jd provider model_id jd sp w st).2.events =
      errCount st.events := by
  rw [extract_parsed model_id jd sp hv hresp hrec]
  refine ⟨?_, ?_, ?_⟩
  · intro hmiss hpres
    simp only [pyDictGet_eq_find, hmiss, hpres, Option.getD_some, Option.getD_none]
  · intro hmiss hpres
    simp only [pyDictGet_eq_find, hmiss, hpres, Option.getD_some, Option.getD_none]
  · show errCount (st.events ++ [⟨callingMsg provider model_id, .working⟩]) =
      errCount st.events
    rw [errCount_append]
    rfl

/-- A classifier response carrying only the company key. -/
def jsonOnlyCompany : Str :=
  ['{'] ++ "\"company_name\": \"ACME GmbH\"".toList ++ ['}']

/-- Happy world whose classifier response has only the company key. -/
def wOnlyCompany : World :=
  { wHappy with llm := fun _ => .ok jsonOnlyCompany }

/-- C10 (witness): on the concrete response carrying only company_name the
extraction returns the real company with the sentinel role. -/
theorem C10_partial_keys_witness :
    (extract_info_from_jd claudeTag "m".toList jdSample SYSTEM_PROMPT
      wOnlyCompany st0).1 = (.str acmeCompany, .str unknownRole) :=
  (C10_partial_keys claudeTag "m".toList jdSample SYSTEM_PROMPT wOnlyCompany
    st0 jsonOnlyCompany [(companyKey, .str acmeCompany)] (.str acmeCompany)
    (Or.inl rfl) rfl (by rfl)).1 (by rfl) (by rfl)

/-- Initialisation with an unknown provider tag matches neither branch and
returns True without any event. -/
theorem init_unknown (provider : Str) (w : World) (st : St)
    (h1 : provider ≠ claudeTag) (h2 : provider ≠ geminiTag) :
    initialize_ai_provider provider w st = (true, st) := by
  unfold initialize_ai_provider
  rw [if_neg (fun h => h1 h.1)]
  rw [if_neg (fun h => h2 h.1)]

/-- The model catalog has no entry for an unknown provider tag. -/
theorem MODELS_unknown (provider : Str)
    (h1 : provider ≠ claudeTag) (h2 : provider ≠ geminiTag) :
    MODELS provider = none := by
  unfold MODELS
  rw [if_neg h1, if_neg h2]

/-- C4 (amended): calling run with a provider tag outside claude/gemini is
not caught as a ConfigError: initialisation succeeds vacuously with no
event, and the model-catalog lookup raises KeyError to the caller; no
error ProgressEvent is emitted and null is not returned. -/
theorem C4_amended (provider jd : Str) (w : World) (st : St)
    (h1 : provider ≠ claudeTag) (h2 : provider ≠ geminiTag) :
    run_job_application_logic provider jd w st =
      (.raise (keyErrorMsg provider), st) := by
  unfold run_job_application_logic
  rw [init_unknown provider w st h1 h2]
  simp only []
  rw [if_neg (by simp), MODELS_unknown provider h1 h2]

/-- C4 (witness for the amended theorem): instantiated at provider tag
"anthropic". -/
theorem C4_amended_witness :
    run_job_application_logic "anthropic".toList jdSample wHappy st0 =
      (.raise (keyErrorMsg "anthropic".toList), st0) :=
  C4_amended "anthropic".toList jdSample wHappy st0 (by decide) (by decide)

-- Filesystem lemmas.

theorem fsRead_fsWrite_same (fs : List (Str × Str)) (p c : Str) :
    fsRead (fsWrite fs p c) p = some c := by
  unfold fsRead fsWrite
  rw [List.find?_append]
  have hnone : (fs.filter (fun kv => !decide (kv.1 = p))).find?
      (fun kv => kv.1 = p) = none := by
    rw [List.find?_eq_none]
    intro kv hkv
    have := List.of_mem_filter hkv
    simp at this
    simp [this]
  rw [hnone]
  simp [List.find?]

theorem fsRead_fsWrite_ne (fs : List (Str × Str)) (p c q : Str) (h : q ≠ p) :
    fsRead (fsWrite fs p c) q = fsRead fs q := by
  unfold fsRead fsWrite
  rw [List.find?_append]
  have hfilter : (fs.filter (fun kv => !decide (kv.1 = p))).find?
      (fun kv => kv.1 = q) = fs.find? (fun kv => kv.1 = q) := by
    induction fs with
    | nil => rfl
    | cons kv fs ih =>
      by_cases hk : kv.1 = p
      · rw [List.filter_cons_of_neg (by simp [hk])]
        rw [List.find?_cons_of_neg _ (by simp [hk, h.symm])]
        exact ih
      · rw [List.filter_cons_of_pos (by simp [hk])]
        by_cases hq : kv.1 = q
        · rw [List.find?_cons_of_pos _ (by simp [hq]),
            List.find?_cons_of_pos _ (by simp [hq])]
        · rw [List.find?_cons_of_neg _ (by simp [hq]),
            List.find?_cons_of_neg _ (by simp [hq])]
          exact ih
  rw [hfilter]
  have hlast : List.find? (fun kv => kv.1 = q) [(p, c)] = none := by
    simp [List.find?, h.symm]
  rw [hlast]
  cases fs.find? (fun kv => kv.1 = q) <;> rfl

-- Artifact-path lengths and distinctness.

theorem path_len_html (d fn : Str) :
    (htmlPath d fn).length = d.length + fn.length + 21 := by
  unfold htmlPath
  simp only [List.length_append]
  have e1 : ("/CV_ZohaibMalik_".toList).length = 16 := rfl
  have e2 : (".html".toList).length = 5 := rfl
  rw [e1, e2]
  omega

theorem path_len_pdf (d fn : Str) :
    (pdfPath d fn).length = d.length + fn.length + 20 := by
  unfold pdfPath
  simp only [List.length_append]
  have e1 : ("/CV_ZohaibMalik_".toList).length = 16 := rfl
  have e2 : (".pdf".toList).length = 4 := rfl
  rw [e1, e2]
  omega

theorem path_len_txt (d : Str) : (txtPath d).length = d.length + 16 := by
  unfold txtPath
  simp only [List.length_append]
  have e1 : ("/Anschreiben.txt".toList).length = 16 := rfl
  rw [e1]

theorem htmlPath_ne_pdfPath (d fn : Str) : htmlPath d fn ≠ pdfPath d fn := by
  intro h
  have := congrArg List.length h
  rw [path_len_html, path_len_pdf] at this
  omega

theorem htmlPath_ne_txtPath (d fn : Str) : htmlPath d fn ≠ txtPath d := by
  intro h
  have := congrArg List.length h
  rw [path_len_html, path_len_txt] at this
  omega

theorem pdfPath_ne_txtPath (d fn : Str) : pdfPath d fn ≠ txtPath d := by
  intro h
  have := congrArg List.length h
  rw [path_len_pdf, path_len_txt] at this
  omega

-- Shape lemmas for the write stage.

theorem create_ok {w : World} {st : St} (c r : Str)
    (h : w.mkdirFail (dirName w.date c r) = none) :
    create_job_directory (.str c) (.str r) w st =
      (some (dirName w.date c r),
       emit { st with dirs := if dirName w.date c r ∈ st.dirs then st.dirs
                              else st.dirs ++ [dirName w.date c r] }
         (dirCreatedMsg (dirLeafName w.date c r)) .success) := by
  unfold create_job_directory
  simp only []
  rw [h]

theorem save_ok {w : World} {st : St} (d : Str) (comp : PyVal) (r cv an : Str)
    (h1 : w.writeFail (htmlPath d (safe_role_fn r)) = none)
    (h2 : w.writeFail (pdfPath d (safe_role_fn r)) = none)
    (h3 : w.writeFail (txtPath d) = none) :
    (save_files d comp (.str r) cv an w st).files =
      fsWrite (fsWrite (fsWrite st.files (htmlPath d (safe_role_fn r)) cv)
        (pdfPath d (safe_role_fn r)) (pdfRender cv)) (txtPath d) an ∧
    (save_files d comp (.str r) cv an w st).dirs = st.dirs ∧
    (save_files d comp (.str r) cv an w st).events = st.events ++
      [⟨savedHtmlMsg ("CV_ZohaibMalik_".toList ++ safe_role_fn r ++ ".html".toList),
        .success⟩,
       ⟨savedPdfMsg ("CV_ZohaibMalik_".toList ++ safe_role_fn r ++ ".pdf".toList),
        .success⟩,
       ⟨savedTxtMsg "Anschreiben.txt".toList, .success⟩] ∧
    (save_files d comp (.str r) cv an w st).callCount = st.callCount ∧
    (save_files d comp (.str r) cv an w st).calls = st.calls := by
  unfold save_files
  simp only []
  rw [h1, h2, h3]
  refine ⟨rfl, rfl, ?_, rfl, rfl⟩
  simp [emit, List.append_assoc]

/-- The write stage of one pipeline run on already-classified names:
directory creation (logic.py line 256) followed by `save_files` (line
281). -/
def materialize (w : World) (c r cv an : Str) (st : St) : Option Str × St :=
  let dr := create_job_directory (.str c) (.str r) w st
  match dr.1 with
  | some p => (some p, save_files p (.str c) (.str r) cv an w dr.2)
  | none => (none, dr.2)

/-- C9: with the same date and identical company and role, two consecutive
runs of the write stage return the same output directory path, the second
directory creation is a no-op (idempotent, the directory already exists),
and the second run overwrites the three artifact files in place with its
own contents. -/
theorem C9_idempotent_rerun (w : World) (c r cv1 an1 cv2 an2 : Str) (st : St)
    (hm : w.mkdirFail (dirName w.date c r) = none)
    (hw : ∀ q, w.writeFail q = none) :
    (materialize w c r cv1 an1 st).1 = some (dirName w.date c r) ∧
    (materialize w c r cv2 an2 (materialize w c r cv1 an1 st).2).1 =
      some (dirName w.date c r) ∧
    (materialize w c r cv2 an2 (materialize w c r cv1 an1 st).2).2.dirs =
      (materialize w c r cv1 an1 st).2.dirs ∧
    fsRead (materialize w c r cv2 an2 (materialize w c r cv1 an1 st).2).2.files
      (htmlPath (dirName w.date c r) (safe_role_fn r)) = some cv2 ∧
    fsRead (materialize w c r cv2 an2 (materialize w c r cv1 an1 st).2).2.files
      (pdfPath (dirName w.date c r) (safe_role_fn r)) = some (pdfRender cv2) ∧
    fsRead (materialize w c r cv2 an2 (materialize w c r cv1 an1 st).2).2.files
      (txtPath (dirName w.date c r)) = some an2 := by
  have hd := fun (st' : St) => @create_ok w st' c r hm
  have hm1 : materialize w c r cv1 an1 st =
      (some (dirName w.date c r),
       save_files (dirName w.date c r) (.str c) (.str r) cv1 an1 w
         (emit { st with dirs := if dirName w.date c r ∈ st.dirs then st.dirs
                                 else st.dirs ++ [dirName w.date c r] }
           (dirCreatedMsg (dirLeafName w.date c r)) .success)) := by
    unfold materialize
    rw [hd st]
  rw [hm1]
  set p := dirName w.date c r with hp
  set D1 : St := emit { st with dirs := if p ∈ st.dirs then st.dirs
                                        else st.dirs ++ [p] }
    (dirCreatedMsg (dirLeafName w.date c r)) .success with hD1
  set S1 : St := save_files p (.str c) (.str r) cv1 an1 w D1 with hS1
  have hm2 : materialize w c r cv2 an2 S1 =
      (some p,
       save_files p (.str c) (.str r) cv2 an2 w
         (emit { S1 with dirs := if p ∈ S1.dirs then S1.dirs
                                 else S1.dirs ++ [p] }
           (dirCreatedMsg (dirLeafName w.date c r)) .success)) := by
    unfold materialize
    rw [hd S1]
  rw [hm2]
  have hsave1 := @save_ok w D1 p (.str c) r cv1 an1
    (hw _) (hw _) (hw _)
  have hmemS1 : p ∈ S1.dirs := by
    rw [hS1]
    rw [hsave1.2.1]
    rw [hD1]
    show p ∈ (if p ∈ st.dirs then st.dirs else st.dirs ++ [p])
    by_cases hmem : p ∈ st.dirs
    · rw [if_pos hmem]; exact hmem
    · rw [if_neg hmem]; exact List.mem_append_right _ (by simp)
  set D2 : St := emit { S1 with dirs := if p ∈ S1.dirs then S1.dirs
                                        else S1.dirs ++ [p] }
    (dirCreatedMsg (dirLeafName w.date c r)) .success with hD2
  have hsave2 := @save_ok w D2 p (.str c) r cv2 an2
    (hw _) (hw _) (hw _)
  refine ⟨rfl, rfl, ?_, ?_, ?_, ?_⟩
  · rw [hsave2.2.1, hD2]
    show (if p ∈ S1.dirs then S1.dirs else S1.dirs ++ [p]) = S1.dirs
    rw [if_pos hmemS1]
  · rw [hsave2.1]
    rw [fsRead_fsWrite_ne _ _ _ _ (htmlPath_ne_txtPath p (safe_role_fn r)),
      fsRead_fsWrite_ne _ _ _ _ (htmlPath_ne_pdfPath p (safe_role_fn r)),
      fsRead_fsWrite_same]
  · rw [hsave2.1]
    rw [fsRead_fsWrite_ne _ _ _ _ (pdfPath_ne_txtPath p (safe_role_fn r)),
      fsRead_fsWrite_same]
  · rw [hsave2.1]
    rw [fsRead_fsWrite_same]

/-- C9 (witness): instantiated with concrete contents on the happy world;
the second run's contents are the ones read back. -/
theorem C9_idempotent_rerun_witness :
    (materialize wHappy acmeCompany dataEngineer cvSample letterSample st0).1 =
      some happyDir ∧
    fsRead (materialize wHappy acmeCompany dataEngineer "v2".toList "w2".toList
        (materialize wHappy acmeCompany dataEngineer cvSample letterSample
          st0).2).2.files
      (txtPath happyDir) = some "w2".toList :=
  have h := C9_idempotent_rerun wHappy acmeCompany dataEngineer cvSample
    letterSample "v2".toList "w2".toList st0 rfl (fun _ => rfl)
  ⟨h.1, h.2.2.2.2.2⟩

-- Driver-walking lemmas.

theorem init_claude_ok {w : World} {st : St}
    (hkey : truthy w.anthropicKey = true) (hc : st.claudeClient = false) :
    initialize_ai_provider claudeTag w st =
      (true, emit { st with claudeClient := true }
        "Claude client initialized.".toList .info) := by
  unfold initialize_ai_provider
  rw [if_pos ⟨rfl, hc⟩, if_neg (by simp [hkey])]

theorem MODELS_claude :
    MODELS claudeTag = some ("claude-3-5-haiku-20241022".toList,
      "claude-3-5-haiku-20241022".toList) := rfl

theorem read_ok {w : World} {st : St} (path content : Str)
    (h : w.readFile path = .ok content) :
    read_file_content path w st = (some content, st) := by
  unfold read_file_content
  rw [h]

theorem errCount_cons (e : Event) (l : List Event) :
    errCount (e :: l) = (if e.severity = Severity.error then 1 else 0) +
      errCount l := by
  unfold errCount
  by_cases h : e.severity = Severity.error
  · rw [if_pos h, List.filter_cons_of_pos (by simp [h])]
    simp [Nat.add_comm]
  · rw [if_neg h, List.filter_cons_of_neg (by simp [h])]
    simp

theorem errCount_nil : errCount [] = 0 := rfl

theorem save_ok_errCount {w : World} {st : St} (d : Str) (comp : PyVal)
    (r cv an : Str) (hw : ∀ q, w.writeFail q = none) :
    errCount (save_files d comp (.str r) cv an w st).events =
      errCount st.events := by
  rw [(save_ok d comp r cv an (hw _) (hw _) (hw _)).2.2.1, errCount_append]
  rfl

/-- C6: for every classifier response from which no JSON value can be
recovered (blank response, no brace-delimited blob, or unparseable blob),
the pipeline emits exactly one error ProgressEvent, substitutes the
sentinel classification, and continues through the directory stage and the
rest of the pipeline to completion instead of aborting. -/
theorem C6_unparseable_continues (w : World)
    (jd response cvText anText t1 t2 t3 : Str)
    (hkey : truthy w.anthropicKey = true)
    (hjd : ¬ pyStrip jd = [])
    (hllm0 : w.llm 0 = .ok response)
    (hrec : recoverJson response = none)
    (hllm1 : w.llm 1 = .ok cvText) (hcv : ¬ pyStrip cvText = [])
    (hllm2 : w.llm 2 = .ok anText) (han : ¬ pyStrip anText = [])
    (hr1 : w.readFile TEMPLATE_CV_PATH = .ok t1) (ht1 : t1 ≠ [])
    (hr2 : w.readFile CORE_INFO_PATH = .ok t2) (ht2 : t2 ≠ [])
    (hr3 : w.readFile REFERENCE_CV_PATH = .ok t3) (ht3 : t3 ≠ [])
    (hmk : ∀ q, w.mkdirFail q = none)
    (hwr : ∀ q, w.writeFail q = none) :
    (run_job_application_logic claudeTag jd w st0).1 =
      .ret (some (dirName w.date unknownCompany unknownRole)) ∧
    errCount (run_job_application_logic claudeTag jd w st0).2.events = 1 := by
  unfold run_job_application_logic
  rw [init_claude_ok hkey rfl]
  simp only []
  rw [if_neg (by simp), MODELS_claude]
  simp only []
  rw [if_neg hjd]
  obtain ⟨msg, hmsg, hext⟩ :=
    @extract_unrecoverable claudeTag "claude-3-5-haiku-20241022".toList jd
      SYSTEM_PROMPT w
      (emit (emit { st0 with claudeClient := true }
        "Claude client initialized.".toList Severity.info)
        (startingMsg claudeTag) Severity.info)
      response (Or.inl rfl) hllm0 hrec
  rw [hext]
  simp only [sentinelPair]
  rw [create_ok unknownCompany unknownRole (hmk _)]
  simp only []
  rw [read_ok _ _ hr1, read_ok _ _ hr2, read_ok _ _ hr3]
  simp only []
  rw [if_neg (by simp [ht1, ht2, ht3])]
  unfold tailor_cv
  rw [call_ai_ok _ _ _ (Or.inl rfl) hllm1]
  simp only []
  rw [if_neg hcv]
  unfold generate_anschreiben
  rw [call_ai_ok _ _ _ (Or.inl rfl) hllm2]
  simp only []
  rw [if_neg han]
  refine ⟨rfl, ?_⟩
  rw [save_ok_errCount _ _ _ _ _ hwr]
  simp [emit, callStep, st0, errCount_append, errCount_cons, errCount_nil]

/-- Happy world whose classifier response contains no JSON. -/
def wUnparseable : World :=
  { wHappy with llm := fun n =>
      if n = 0 then .ok "no json".toList else wHappy.llm n }

/-- C6 (witness): on the concrete prose-only response "no json" the run
completes into the sentinel-named directory with exactly one error
event. -/
theorem C6_unparseable_continues_witness :
    (run_job_application_logic claudeTag jdSample wUnparseable st0).1 =
      .ret (some sentinelDir) ∧
    errCount (run_job_application_logic claudeTag jdSample wUnparseable
      st0).2.events = 1 :=
  C6_unparseable_continues wUnparseable jdSample "no json".toList cvSample
    letterSample "template text".toList "template text".toList
    "template text".toList rfl (by decide) rfl (by rfl) rfl (by decide) rfl
    (by decide) rfl (by decide) rfl (by decide) rfl (by decide)
    (fun _ => rfl) (fun _ => rfl)

/-- The parsed members of `jsonGoodC`. -/
def kvsGood : List (Str × PyVal) :=
  [(companyKey, .str acmeCompany), (jobTitleKey, .str dataEngineer)]

theorem recover_jsonGoodC : recoverJson jsonGoodC = some (.dict kvsGood) := by
  rfl

/-- C2 (amended): if the LLM SDK raises during the CV Tailor call or the
Letter Composer call, the failure is fatal — it is reported with the
underlying message and the pipeline returns null.  But an SDK exception
during the classification call does not abort the run: the API failure is
reported with the underlying message, the sentinel classification is
substituted, and the pipeline continues to completion. -/
theorem C2_amended :
    (∀ (w : World) (jd m t1 t2 t3 : Str),
      truthy w.anthropicKey = true → ¬ pyStrip jd = [] →
      w.llm 0 = .ok jsonGoodC → w.llm 1 = .exn m →
      w.readFile TEMPLATE_CV_PATH = .ok t1 → t1 ≠ [] →
      w.readFile CORE_INFO_PATH = .ok t2 → t2 ≠ [] →
      w.readFile REFERENCE_CV_PATH = .ok t3 → t3 ≠ [] →
      (∀ q, w.mkdirFail q = none) →
      (run_job_application_logic claudeTag jd w st0).1 = .ret none ∧
      Event.mk (apiFailMsg claudeTag m) .error ∈
        (run_job_application_logic claudeTag jd w st0).2.events) ∧
    (∀ (w : World) (jd m cvText t1 t2 t3 : Str),
      truthy w.anthropicKey = true → ¬ pyStrip jd = [] →
      w.llm 0 = .ok jsonGoodC → w.llm 1 = .ok cvText → ¬ pyStrip cvText = [] →
      w.llm 2 = .exn m →
      w.readFile TEMPLATE_CV_PATH = .ok t1 → t1 ≠ [] →
      w.readFile CORE_INFO_PATH = .ok t2 → t2 ≠ [] →
      w.readFile REFERENCE_CV_PATH = .ok t3 → t3 ≠ [] →
      (∀ q, w.mkdirFail q = none) →
      (run_job_application_logic claudeTag jd w st0).1 = .ret none ∧
      Event.mk (apiFailMsg claudeTag m) .error ∈
        (run_job_application_logic claudeTag jd w st0).2.events) ∧
    (∀ (w : World) (jd m cvText anText t1 t2 t3 : Str),
      truthy w.anthropicKey = true → ¬ pyStrip jd = [] →
      w.llm 0 = .exn m →
      w.llm 1 = .ok cvText → ¬ pyStrip cvText = [] →
      w.llm 2 = .ok anText → ¬ pyStrip anText = [] →
      w.readFile TEMPLATE_CV_PATH = .ok t1 → t1 ≠ [] →
      w.readFile CORE_INFO_PATH = .ok t2 → t2 ≠ [] →
      w.readFile REFERENCE_CV_PATH = .ok t3 → t3 ≠ [] →
      (∀ q, w.mkdirFail q = none) → (∀ q, w.writeFail q = none) →
      (run_job_application_logic claudeTag jd w st0).1 =
        .ret (some (dirName w.date unknownCompany unknownRole)) ∧
      Event.mk (apiFailMsg claudeTag m) .error ∈
        (run_job_application_logic claudeTag jd w st0).2.events) := by
  refine ⟨?_, ?_, ?_⟩
  · intro w jd m t1 t2 t3 hkey hjd hllm0 hllm1 hr1 ht1 hr2 ht2 hr3 ht3 hmk
    unfold run_job_application_logic
    rw [init_claude_ok hkey rfl]
    simp only []
    rw [if_neg (by simp), MODELS_claude]
    simp only []
    rw [if_neg hjd]
    rw [@extract_parsed claudeTag "claude-3-5-haiku-20241022".toList jd
      SYSTEM_PROMPT w _ jsonGoodC kvsGood (Or.inl rfl) hllm0 recover_jsonGoodC]
    simp only []
    rw [show pyDictGet kvsGood companyKey (.str unknownCompany) =
      .str acmeCompany from rfl]
    rw [show pyDictGet kvsGood jobTitleKey (.str unknownRole) =
      .str dataEngineer from rfl]
    rw [create_ok acmeCompany dataEngineer (hmk _)]
    simp only []
    rw [read_ok _ _ hr1, read_ok _ _ hr2, read_ok _ _ hr3]
    simp only []
    rw [if_neg (by simp [ht1, ht2, ht3])]
    unfold tailor_cv
    rw [call_ai_exn _ _ _ (Or.inl rfl) hllm1]
    simp only []
    refine ⟨by trivial, ?_⟩
    simp [emit, callStep, st0]
  · intro w jd m cvText t1 t2 t3 hkey hjd hllm0 hllm1 hcv hllm2 hr1 ht1 hr2
      ht2 hr3 ht3 hmk
    unfold run_job_application_logic
    rw [init_claude_ok hkey rfl]
    simp only []
    rw [if_neg (by simp), MODELS_claude]
    simp only []
    rw [if_neg hjd]
    rw [@extract_parsed claudeTag "claude-3-5-haiku-20241022".toList jd
      SYSTEM_PROMPT w _ jsonGoodC kvsGood (Or.inl rfl) hllm0 recover_jsonGoodC]
    simp only []
    rw [show pyDictGet kvsGood companyKey (.str unknownCompany) =
      .str acmeCompany from rfl]
    rw [show pyDictGet kvsGood jobTitleKey (.str unknownRole) =
      .str dataEngineer from rfl]
    rw [create_ok acmeCompany dataEngineer (hmk _)]
    simp only []
    rw [read_ok _ _ hr1, read_ok _ _ hr2, read_ok _ _ hr3]
    simp only []
    rw [if_neg (by simp [ht1, ht2, ht3])]
    unfold tailor_cv
    rw [call_ai_ok _ _ _ (Or.inl rfl) hllm1]
    simp only []
    rw [if_neg hcv]
    unfold generate_anschreiben
    rw [call_ai_exn _ _ _ (Or.inl rfl) hllm2]
    simp only []
    refine ⟨by trivial, ?_⟩
    simp [emit, callStep, st0]
  · intro w jd m cvText anText t1 t2 t3 hkey hjd hllm0 hllm1 hcv hllm2 han
      hr1 ht1 hr2 ht2 hr3 ht3 hmk hwr
    unfold run_job_application_logic
    rw [init_claude_ok hkey rfl]
    simp only []
    rw [if_neg (by simp), MODELS_claude]
    simp only []
    rw [if_neg hjd]
    rw [@extract_exn claudeTag "claude-3-5-haiku-20241022".toList jd
      SYSTEM_PROMPT w _ m (Or.inl rfl) hllm0]
    simp only [sentinelPair]
    rw [create_ok unknownCompany unknownRole (hmk _)]
    simp only []
    rw [read_ok _ _ hr1, read_ok _ _ hr2, read_ok _ _ hr3]
    simp only []
    rw [if_neg (by simp [ht1, ht2, ht3])]
    unfold tailor_cv
    rw [call_ai_ok _ _ _ (Or.inl rfl) hllm1]
    simp only []
    rw [if_neg hcv]
    unfold generate_anschreiben
    rw [call_ai_ok _ _ _ (Or.inl rfl) hllm2]
    simp only []
    rw [if_neg han]
    refine ⟨by trivial, ?_⟩
    rw [(@save_ok w _ (dirName w.date unknownCompany unknownRole)
      (.str unknownCompany) unknownRole cvText anText
      (hwr _) (hwr _) (hwr _)).2.2.1]
    simp [emit, callStep, st0]

/-- Happy world except that the Tailor SDK call raises. -/
def wTailorRaises : World :=
  { wHappy with llm := fun n =>
      if n = 1 then .exn "boom".toList else wHappy.llm n }

/-- C2 (witness for the amended theorem): the Tailor-stage part
instantiated on a concrete world whose second SDK call raises "boom". -/
theorem C2_amended_witness :
    (run_job_application_logic claudeTag jdSample wTailorRaises st0).1 =
      .ret none ∧
    Event.mk (apiFailMsg claudeTag "boom".toList) .error ∈
      (run_job_application_logic claudeTag jdSample wTailorRaises st0).2.events :=
  C2_amended.1 wTailorRaises jdSample "boom".toList "template text".toList
    "template text".toList "template text".toList rfl (by decide) rfl rfl
    rfl (by decide) rfl (by decide) rfl (by decide) (fun _ => rfl)

theorem read_notFound {w : World} {st : St} (path : Str)
    (h : w.readFile path = .notFound) :
    read_file_content path w st =
      (none, emit st (templateNotFoundMsg path) .error) := by
  unfold read_file_content
  rw [h]

/-- C5 (amended): when template loading fails, the pipeline terminates with
null after emitting one error ProgressEvent per missing template file —
between one and three events, not always exactly one. -/
theorem C5_amended (w : World) (jd : Str) (b1 b2 b3 : Bool) (t1 t2 t3 : Str)
    (hkey : truthy w.anthropicKey = true) (hjd : ¬ pyStrip jd = [])
    (hllm0 : w.llm 0 = .ok jsonGoodC)
    (hb : (b1 || b2 || b3) = true)
    (h1t : b1 = true → w.readFile TEMPLATE_CV_PATH = .notFound)
    (h1f : b1 = false → w.readFile TEMPLATE_CV_PATH = .ok t1 ∧ t1 ≠ [])
    (h2t : b2 = true → w.readFile CORE_INFO_PATH = .notFound)
    (h2f : b2 = false → w.readFile CORE_INFO_PATH = .ok t2 ∧ t2 ≠ [])
    (h3t : b3 = true → w.readFile REFERENCE_CV_PATH = .notFound)
    (h3f : b3 = false → w.readFile REFERENCE_CV_PATH = .ok t3 ∧ t3 ≠ [])
    (hmk : ∀ q, w.mkdirFail q = none) :
    (run_job_application_logic claudeTag jd w st0).1 = .ret none ∧
    errCount (run_job_application_logic claudeTag jd w st0).2.events =
      b1.toNat + b2.toNat + b3.toNat := by
  cases b1 <;> cases b2 <;> cases b3 <;>
    first
    | exact absurd hb (by decide)
    | (unfold run_job_application_logic
       rw [init_claude_ok hkey rfl]
       simp only []
       rw [if_neg (by simp), MODELS_claude]
       simp only []
       rw [if_neg hjd]
       rw [@extract_parsed claudeTag "claude-3-5-haiku-20241022".toList jd
         SYSTEM_PROMPT w _ jsonGoodC kvsGood (Or.inl rfl) hllm0
         recover_jsonGoodC]
       simp only []
       rw [show pyDictGet kvsGood companyKey (.str unknownCompany) =
         .str acmeCompany from rfl]
       rw [show pyDictGet kvsGood jobTitleKey (.str unknownRole) =
         .str dataEngineer from rfl]
       rw [create_ok acmeCompany dataEngineer (hmk _)]
       simp only []
       (first
         | rw [read_notFound _ (h1t rfl)]
         | rw [read_ok _ _ (h1f rfl).1])
       (first
         | rw [read_notFound _ (h2t rfl)]
         | rw [read_ok _ _ (h2f rfl).1])
       (first
         | rw [read_notFound _ (h3t rfl)]
         | rw [read_ok _ _ (h3f rfl).1])
       simp only []
       refine ⟨by trivial, ?_⟩
       simp [emit, callStep, st0, errCount_append, errCount_cons, errCount_nil])

/-- World with the first and third template files missing. -/
def wTwoMissing : World :=
  { wHappy with readFile := fun p =>
      if p = CORE_INFO_PATH then .ok "template text".toList else .notFound }

/-- C5 (witness for the amended theorem): with the CV template and the
reference CV missing the run returns null after exactly two error
events. -/
theorem C5_amended_witness :
    (run_job_application_logic claudeTag jdSample wTwoMissing st0).1 =
      .ret none ∧
    errCount (run_job_application_logic claudeTag jdSample wTwoMissing
      st0).2.events = 2 :=
  C5_amended wTwoMissing jdSample true false true "x".toList
    "template text".toList "x".toList rfl (by decide) rfl rfl
    (fun _ => rfl) (fun h => Bool.noConfusion h)
    (fun h => Bool.noConfusion h) (fun _ => ⟨rfl, by decide⟩)
    (fun _ => rfl) (fun h => Bool.noConfusion h) (fun _ => rfl)

/-- C7: if the CV Tailor stage returns an empty or whitespace-only string,
the pipeline emits one error event and returns null with no file written
at all (in particular neither the PDF nor the TXT artifact); likewise an
empty Letter Composer result aborts with nothing written — in particular
before the letter file would have been written. -/
theorem C7_empty_generation_aborts :
    (∀ (w : World) (jd tText t1 t2 t3 : Str),
      truthy w.anthropicKey = true → ¬ pyStrip jd = [] →
      w.llm 0 = .ok jsonGoodC →
      w.llm 1 = .ok tText → pyStrip tText = [] →
      w.readFile TEMPLATE_CV_PATH = .ok t1 → t1 ≠ [] →
      w.readFile CORE_INFO_PATH = .ok t2 → t2 ≠ [] →
      w.readFile REFERENCE_CV_PATH = .ok t3 → t3 ≠ [] →
      (∀ q, w.mkdirFail q = none) →
      (run_job_application_logic claudeTag jd w st0).1 = .ret none ∧
      (run_job_application_logic claudeTag jd w st0).2.files = [] ∧
      errCount (run_job_application_logic claudeTag jd w st0).2.events = 1) ∧
    (∀ (w : World) (jd cvText aText t1 t2 t3 : Str),
      truthy w.anthropicKey = true → ¬ pyStrip jd = [] →
      w.llm 0 = .ok jsonGoodC →
      w.llm 1 = .ok cvText → ¬ pyStrip cvText = [] →
      w.llm 2 = .ok aText → pyStrip aText = [] →
      w.readFile TEMPLATE_CV_PATH = .ok t1 → t1 ≠ [] →
      w.readFile CORE_INFO_PATH = .ok t2 → t2 ≠ [] →
      w.readFile REFERENCE_CV_PATH = .ok t3 → t3 ≠ [] →
      (∀ q, w.mkdirFail q = none) →
      (run_job_application_logic claudeTag jd w st0).1 = .ret none ∧
      (run_job_application_logic claudeTag jd w st0).2.files = [] ∧
      errCount (run_job_application_logic claudeTag jd w st0).2.events = 1) := by
  constructor
  · intro w jd tText t1 t2 t3 hkey hjd hllm0 hllm1 htt hr1 ht1 hr2 ht2 hr3
      ht3 hmk
    unfold run_job_application_logic
    rw [init_claude_ok hkey rfl]
    simp only []
    rw [if_neg (by simp), MODELS_claude]
    simp only []
    rw [if_neg hjd]
    rw [@extract_parsed claudeTag "claude-3-5-haiku-20241022".toList jd
      SYSTEM_PROMPT w _ jsonGoodC kvsGood (Or.inl rfl) hllm0 recover_jsonGoodC]
    simp only []
    rw [show pyDictGet kvsGood companyKey (.str unknownCompany) =
      .str acmeCompany from rfl]
    rw [show pyDictGet kvsGood jobTitleKey (.str unknownRole) =
      .str dataEngineer from rfl]
    rw [create_ok acmeCompany dataEngineer (hmk _)]
    simp only []
    rw [read_ok _ _ hr1, read_ok _ _ hr2, read_ok _ _ hr3]
    simp only []
    rw [if_neg (by simp [ht1, ht2, ht3])]
    unfold tailor_cv
    rw [call_ai_ok _ _ _ (Or.inl rfl) hllm1]
    simp only []
    rw [if_pos htt]
    refine ⟨by trivial, rfl, ?_⟩
    simp [emit, callStep, st0, errCount_append, errCount_cons, errCount_nil]
  · intro w jd cvText aText t1 t2 t3 hkey hjd hllm0 hllm1 hcv hllm2 hat hr1
      ht1 hr2 ht2 hr3 ht3 hmk
    unfold run_job_application_logic
    rw [init_claude_ok hkey rfl]
    simp only []
    rw [if_neg (by simp), MODELS_claude]
    simp only []
    rw [if_neg hjd]
    rw [@extract_parsed claudeTag "claude-3-5-haiku-20241022".toList jd
      SYSTEM_PROMPT w _ jsonGoodC kvsGood (Or.inl rfl) hllm0 recover_jsonGoodC]
    simp only []
    rw [show pyDictGet kvsGood companyKey (.str unknownCompany) =
      .str acmeCompany from rfl]
    rw [show pyDictGet kvsGood jobTitleKey (.str unknownRole) =
      .str dataEngineer from rfl]
    rw [create_ok acmeCompany dataEngineer (hmk _)]
    simp only []
    rw [read_ok _ _ hr1, read_ok _ _ hr2, read_ok _ _ hr3]
    simp only []
    rw [if_neg (by simp [ht1, ht2, ht3])]
    unfold tailor_cv
    rw [call_ai_ok _ _ _ (Or.inl rfl) hllm1]
    simp only []
    rw [if_neg hcv]
    unfold generate_anschreiben
    rw [call_ai_ok _ _ _ (Or.inl rfl) hllm2]
    simp only []
    rw [if_pos hat]
    refine ⟨by trivial, rfl, ?_⟩
    simp [emit, callStep, st0, errCount_append, errCount_cons, errCount_nil]

/-- Happy world except that the Tailor call returns whitespace only. -/
def wTailorEmpty : World :=
  { wHappy with llm := fun n =>
      if n = 1 then .ok "   ".toList else wHappy.llm n }

/-- C7 (witness): instantiated on a concrete world whose Tailor response is
three spaces — the run returns null with nothing written and one error
event. -/
theorem C7_empty_generation_aborts_witness :
    (run_job_application_logic claudeTag jdSample wTailorEmpty st0).1 =
      .ret none ∧
    (run_job_application_logic claudeTag jdSample wTailorEmpty st0).2.files =
      [] ∧
    errCount (run_job_application_logic claudeTag jdSample wTailorEmpty
      st0).2.events = 1 :=
  C7_empty_generation_aborts.1 wTailorEmpty jdSample "   ".toList
    "template text".toList "template text".toList "template text".toList
    rfl (by decide) rfl rfl (by decide) rfl (by decide) rfl (by decide) rfl
    (by decide) (fun _ => rfl)

-- Calls-trace lemmas: which model names each stage records, in any world.

theorem init_calls (p : Str) (w : World) (st : St) :
    ((initialize_ai_provider p w st).2).calls = st.calls := by
  unfold initialize_ai_provider
  split
  · split <;> rfl
  · split
    · split <;> rfl
    · rfl

theorem call_ai_calls (p m : Str) (pr : Prompt) (sp : Str) (w : World)
    (st : St) (hv : p = claudeTag ∨ p = geminiTag) :
    ((call_ai p m pr sp w st).2).calls = st.calls ++ [m] := by
  unfold call_ai
  rw [if_pos hv]
  simp only []
  split <;> rfl

theorem extract_calls (p m jd sp : Str) (w : World) (st : St)
    (hv : p = claudeTag ∨ p = geminiTag) :
    ((extract_info_from_jd p m jd sp w st).2).calls = st.calls ++ [m] := by
  unfold extract_info_from_jd
  cases hw : w.llm st.callCount with
  | ok t =>
    rw [call_ai_ok m (.extraction jd) sp hv hw]
    simp only []
    split
    · rfl
    · split
      · rfl
      · split <;> rfl
  | exn m2 =>
    rw [call_ai_exn m (.extraction jd) sp hv hw]
    rfl

theorem read_calls (path : Str) (w : World) (st : St) :
    ((read_file_content path w st).2).calls = st.calls := by
  unfold read_file_content
  split <;> rfl

theorem create_calls (company role : PyVal) (w : World) (st : St) :
    ((create_job_directory company role w st).2).calls = st.calls := by
  unfold create_job_directory
  cases company <;> cases role <;> simp only [] <;>
    first
    | rfl
    | (split <;> rfl)

theorem save_calls (d : Str) (comp role : PyVal) (cv an : Str) (w : World)
    (st : St) : (save_files d comp role cv an w st).calls = st.calls := by
  unfold save_files
  cases role <;> simp only [] <;>
    first
    | rfl
    | (split
       · rfl
       · split
         · rfl
         · split <;> rfl)

theorem tailor_calls (p m jd cv sp : Str) (w : World) (st : St)
    (hv : p = claudeTag ∨ p = geminiTag) :
    ((tailor_cv p m jd cv sp w st).2).calls = st.calls ++ [m] := by
  unfold tailor_cv
  exact call_ai_calls p m _ sp w st hv

theorem gen_calls (p m jd cv core ref sp : Str) (w : World) (st : St)
    (hv : p = claudeTag ∨ p = geminiTag) :
    ((generate_anschreiben p m jd cv core ref sp w st).2).calls =
      st.calls ++ [m] := by
  unfold generate_anschreiben
  exact call_ai_calls p m _ sp w st hv

theorem MODELS_valid (p : Str) {m : Str × Str} (hp : MODELS p = some m) :
    p = claudeTag ∨ p = geminiTag := by
  by_cases h1 : p = claudeTag
  · exact Or.inl h1
  · by_cases h2 : p = geminiTag
    · exact Or.inr h2
    · rw [ MODELS_unknown p h1 h2] at hp
      exact absurd hp (by simp)

/-- C8: in every world and for either provider, the classification call is
the first and uses the fast-tier model, the Tailor and Compose calls use
the powerful-tier model, and no other LLM calls occur: the recorded call
trace of a run is always a prefix of [fast, powerful, powerful]. -/
theorem C8_model_tier_mapping (provider jd : Str) (w : World)
    (mFast mPow : Str) (hp : MODELS provider = some (mFast, mPow)) :
    ∃ k, k ≤ 3 ∧ (run_job_application_logic provider jd w st0).2.calls =
      [mFast, mPow, mPow].take k := by
  have hv := MODELS_valid provider hp
  unfold run_job_application_logic
  rw [hp]
  simp only []
  by_cases hi : (initialize_ai_provider provider w st0).1 = false
  · rw [if_pos hi]
    exact ⟨0, by omega, init_calls provider w st0⟩
  · rw [if_neg hi]
    by_cases hjd : pyStrip jd = []
    · rw [if_pos hjd]
      exact ⟨0, by omega, init_calls provider w st0⟩
    · rw [if_neg hjd]
      generalize hER : extract_info_from_jd provider mFast jd SYSTEM_PROMPT w
        (emit (initialize_ai_provider provider w st0).2 (startingMsg provider)
          Severity.info) = ER
      have hERc : ER.2.calls = [mFast] := by
        rw [← hER, extract_calls provider mFast jd SYSTEM_PROMPT w _ hv]
        rw [show (emit (initialize_ai_provider provider w st0).2
          (startingMsg provider) Severity.info).calls = [] from
          init_calls provider w st0]
        rfl
      generalize hDR : create_job_directory ER.1.1 ER.1.2 w
        (emit ER.2 (identifiedMsg ER.1.2 ER.1.1) Severity.success) = DR
      have hDRc : DR.2.calls = [mFast] := by
        rw [← hDR, create_calls]
        exact hERc
      split
      · exact ⟨1, by omega, hDRc⟩
      · next job_folder hjf =>
        generalize hR1 : read_file_content TEMPLATE_CV_PATH w DR.2 = R1
        generalize hR2 : read_file_content CORE_INFO_PATH w R1.2 = R2
        generalize hR3 : read_file_content REFERENCE_CV_PATH w R2.2 = R3
        have hR3c : R3.2.calls = [mFast] := by
          rw [← hR3, read_calls, ← hR2, read_calls, ← hR1, read_calls]
          exact hDRc
        split
        · next cvTv civ rcv hc1 hc2 hc3 =>
          by_cases hemp : cvTv = [] ∨ civ = [] ∨ rcv = []
          · rw [if_pos hemp]
            exact ⟨1, by omega, hR3c⟩
          · rw [if_neg hemp]
            generalize hTR : tailor_cv provider mPow jd cvTv SYSTEM_PROMPT w
              R3.2 = TR
            have hTRc : TR.2.calls = [mFast, mPow] := by
              rw [← hTR, tailor_calls provider mPow jd cvTv SYSTEM_PROMPT w
                _ hv, hR3c]
              rfl
            split
            · exact ⟨2, by omega, hTRc⟩
            · next tc htc =>
              by_cases hstc : pyStrip tc = []
              · rw [if_pos hstc]
                exact ⟨2, by omega, hTRc⟩
              · rw [if_neg hstc]
                generalize hAR : generate_anschreiben provider mPow jd tc civ
                  rcv SYSTEM_PROMPT w (emit TR.2 cvOkMsg Severity.success) = AR
                have hARc : AR.2.calls = [mFast, mPow, mPow] := by
                  rw [← hAR, gen_calls provider mPow jd tc civ rcv
                    SYSTEM_PROMPT w _ hv]
                  rw [show (emit TR.2 cvOkMsg Severity.success).calls =
                    [mFast, mPow] from hTRc]
                  rfl
                split
                · exact ⟨3, by omega, hARc⟩
                · next an han =>
                  by_cases hsan : pyStrip an = []
                  · rw [if_pos hsan]
                    exact ⟨3, by omega, hARc⟩
                  · rw [if_neg hsan]
                    refine ⟨3, by omega, ?_⟩
                    rw [save_calls]
                    exact hARc
        · exact ⟨1, by omega, hR3c⟩

/-- C8 (witness): in the happy claude world the full trace is recorded —
the fast model once, then the powerful model twice. -/
theorem C8_model_tier_mapping_witness :
    ∃ k, k ≤ 3 ∧
      (run_job_application_logic claudeTag jdSample wHappy st0).2.calls =
        ["claude-3-5-haiku-20241022".toList, "claude-3-5-haiku-20241022".toList,
         "claude-3-5-haiku-20241022".toList].take k :=
  C8_model_tier_mapping claudeTag jdSample wHappy
    "claude-3-5-haiku-20241022".toList "claude-3-5-haiku-20241022".toList rfl

end SmartApplicant
